import Mathlib

/-!
Shallow embedding of `src/crm/schema.py`: the CRM mutation handlers
(`CreateCustomer`, `CreateBulkCustomers`, `CreateProduct`, `CreateOrder`,
`CreateBulkOrders`) over an explicit record store.

Modelling conventions:
  * The Django record store is a `Store` value threaded explicitly; each
    handler returns its GraphQL result object together with the store after
    the call.  ORM reads (`filter`, `get`, `exists`) are pure functions of the
    store; ORM writes (`create`, `bulk_create`) append rows and assign
    sequential primary keys from the store's id counters.
  * A possible `IntegrityError` raised by the store at an insert (e.g. a
    race-induced unique-constraint violation) is environmental
    nondeterminism; it is modelled by a boolean parameter `dbFail` (the
    insert raises iff `dbFail = true`) together with the exception's text
    `dbMsg`.  A handler that catches the exception returns a result object;
    `CreateBulkCustomers.mutate`, which has no `try/except` around its
    `bulk_create`, is modelled in `Except String`, where `Except.error`
    is the uncaught exception propagating to the caller.
  * `ValidationError` raised by a validator is modelled as `Option String`
    (`some msg` = raised with message `msg`).
  * Python truthiness of an optional string argument (`if phone:`) is
    `pyTruthy`: `None` and the empty string are falsy.
  * `re.match` against the anchored pattern of `validate_phone` is modelled
    as an exact full-string match with `\d` read as an ASCII digit.
  * `Float` prices are modelled as `Int`: the claims about prices concern
    only the sign test `price < 0`.
-/

/-- A persisted Customer row (`crm.models.Customer`). -/
structure Customer where
  id : Nat
  name : String
  email : String
  phone : Option String
deriving Repr, DecidableEq

/-- A persisted Product row (`crm.models.Product`). -/
structure Product where
  id : Nat
  name : String
  price : Int
  stock : Option Int
deriving Repr, DecidableEq

/-- A persisted Order row (`crm.models.Order`): references to one customer
and one product. -/
structure Order where
  id : Nat
  customerId : Nat
  productId : Nat
deriving Repr, DecidableEq

/-- The relational store: the three tables plus the next primary key for
each. -/
structure Store where
  customers : List Customer
  products : List Product
  orders : List Order
  nextCustomerId : Nat
  nextProductId : Nat
  nextOrderId : Nat
deriving Repr, DecidableEq

/-- Python truthiness of an optional string (`if phone:`): `None` and `""`
are falsy. -/
def pyTruthy : Option String → Bool
  | none => false
  | some s => s != ""

/-- `Customer.objects.filter(email=email).exists()`. -/
def emailExists (s : Store) (email : String) : Bool :=
  s.customers.any (fun c => c.email == email)

/-- `Customer.objects.get(id=cid)`, `none` when `Customer.DoesNotExist`. -/
def findCustomer (s : Store) (cid : Nat) : Option Customer :=
  s.customers.find? (fun c => c.id == cid)

/-- `Product.objects.get(id=pid)`, `none` when `Product.DoesNotExist`. -/
def findProduct (s : Store) (pid : Nat) : Option Product :=
  s.products.find? (fun p => p.id == pid)

/-- All characters are ASCII digits (`\d` runs of the phone pattern). -/
def phoneDigits (l : List Char) : Bool :=
  l.all Char.isDigit

/-- The `\+\d{10,15}` alternative of the phone pattern. -/
def phonePlusForm : List Char → Bool
  | '+' :: rest => phoneDigits rest && decide (10 ≤ rest.length) && decide (rest.length ≤ 15)
  | _ => false

/-- The `\d{3}-\d{3}-\d{4}` alternative of the phone pattern. -/
def phoneDashForm : List Char → Bool
  | [a, b, c, s1, d, e, f, s2, g, h, i, j] =>
      s1 == '-' && s2 == '-' && phoneDigits [a, b, c, d, e, f, g, h, i, j]
  | _ => false

/-- `re.match(r'^(\+\d{10,15}|\d{3}-\d{3}-\d{4})$', s)` succeeds. -/
def phoneMatches (s : String) : Bool :=
  phonePlusForm s.data || phoneDashForm s.data

/-- The fixed message of the `ValidationError` raised by `validate_phone`. -/
def phoneErrorMsg : String :=
  "Invalid phone number format. Use +1234567890 or 123-456-7890."

/-- `CreateCustomer.validate_phone` / `CreateBulkCustomers.validate_phone`:
`some msg` models a raised `ValidationError`. -/
def validate_phone (phone : String) : Option String :=
  if phoneMatches phone then none else some phoneErrorMsg

/-- Result object of the `create_customer` mutation. -/
structure CreateCustomerResult where
  customer : Option Customer
  success : Bool
  message : String
  errors : Option (List String)
deriving Repr, DecidableEq

/-- `CreateCustomer.mutate`: validate email uniqueness, then phone format if
the phone is truthy; on validation errors return a failure result without
touching the store; otherwise insert (an `IntegrityError` there, `dbFail`,
is caught and reported). -/
def createCustomer (s : Store) (name email : String) (phone : Option String)
    (dbFail : Bool) (dbMsg : String) : CreateCustomerResult × Store :=
  let errors : List String :=
    (if emailExists s email then ["This email already exists."] else []) ++
    (if pyTruthy phone then
      match validate_phone (phone.getD "") with
      | some m => [m]
      | none => []
    else [])
  if errors = [] then
    if dbFail then
      ({ customer := none, success := false,
         message := "Customer creation failed due to database error.",
         errors := some [dbMsg] }, s)
    else
      let c : Customer :=
        { id := s.nextCustomerId, name := name, email := email, phone := phone }
      ({ customer := some c, success := true,
         message := "Customer created successfully.", errors := none },
       { s with customers := s.customers ++ [c],
                nextCustomerId := s.nextCustomerId + 1 })
  else
    ({ customer := none, success := false,
       message := "Customer creation failed due to validation errors.",
       errors := some errors }, s)

/-- Result object of the `create_product` mutation. -/
structure CreateProductResult where
  product : Option Product
  success : Bool
  message : String
  errors : Option (List String)
deriving Repr, DecidableEq

/-- `CreateProduct.validate_price_stock`: `some msg` models a raised
`ValidationError`. -/
def validate_price_stock (stock : Option Int) (price : Int) : Option String :=
  if price < 0 then some "Price cannot be negative."
  else
    match stock with
    | some st => if st < 0 then some "Stock cannot be negative." else none
    | none => none

/-- `CreateProduct.mutate`. -/
def createProduct (s : Store) (name : String) (price : Int) (stock : Option Int)
    (dbFail : Bool) (dbMsg : String) : CreateProductResult × Store :=
  let errors : List String :=
    match validate_price_stock stock price with
    | some m => [m]
    | none => []
  if errors = [] then
    if dbFail then
      ({ product := none, success := false,
         message := "Product creation failed due to database error.",
         errors := some [dbMsg] }, s)
    else
      let p : Product :=
        { id := s.nextProductId, name := name, price := price, stock := stock }
      ({ product := some p, success := true,
         message := "Product created successfully.", errors := none },
       { s with products := s.products ++ [p],
                nextProductId := s.nextProductId + 1 })
  else
    ({ product := none, success := false,
       message := "Product creation failed due to validation errors.",
       errors := some errors }, s)

/-- Result object of the `create_order` mutation. -/
structure CreateOrderResult where
  order : Option Order
  success : Bool
  message : String
  errors : Option (List String)
deriving Repr, DecidableEq

/-- `CreateOrder.mutate`: the `if not product_id` truthiness test on the id
is modelled as a zero test; both references must resolve before the insert
is attempted. -/
def createOrder (s : Store) (customerId productId : Nat)
    (dbFail : Bool) (dbMsg : String) : CreateOrderResult × Store :=
  let errors : List String :=
    (if productId == 0 then ["At least one product must be specified."] else []) ++
    (match findCustomer s customerId with
     | none => ["Customer does not exist."]
     | some _ => []) ++
    (match findProduct s productId with
     | none => ["Product does not exist."]
     | some _ => [])
  if errors = [] then
    if dbFail then
      ({ order := none, success := false,
         message := "Order creation failed due to database error.",
         errors := some [dbMsg] }, s)
    else
      let o : Order :=
        { id := s.nextOrderId, customerId := customerId, productId := productId }
      ({ order := some o, success := true,
         message := "Order created successfully.", errors := none },
       { s with orders := s.orders ++ [o], nextOrderId := s.nextOrderId + 1 })
  else
    ({ order := none, success := false,
       message := "Order creation failed due to validation errors.",
       errors := some errors }, s)

/-- One row of the `bulk_create_customers` input batch
(`BulkCustomerInputType`). -/
structure CustomerInput where
  name : String
  email : String
  phone : Option String
deriving Repr, DecidableEq

/-- `BulkCustomerError`: a per-row error entry of `bulk_create_customers`. -/
structure BulkCustomerError where
  index : Nat
  email : String
  messages : String
deriving Repr, DecidableEq

/-- The pre-fetched uniqueness keys: emails of the batch already present in
the store (`Customer.objects.filter(email__in=...).values_list("email")`). -/
def batchExistingEmails (s : Store) (inputs : List CustomerInput) : List String :=
  (inputs.map (fun c => c.email)).filter (fun e => emailExists s e)

/-- The per-row validation of the `bulk_create_customers` loop body:
duplicate email first, then phone format if the phone is truthy.  `some m`
models the `ValidationError` caught for that row. -/
def customerRowError (seen : List String) (data : CustomerInput) : Option String :=
  if seen.contains data.email then some "This email already exists."
  else if pyTruthy data.phone then validate_phone (data.phone.getD "")
  else none

/-- The validation loop of `CreateBulkCustomers.mutate`: returns the error
entries and the rows accepted for insertion, in batch order.  A row's email
joins the seen set only when the whole row validates. -/
def bulkCustomersLoop (seen : List String) (idx : Nat) :
    List CustomerInput → List BulkCustomerError × List CustomerInput
  | [] => ([], [])
  | data :: rest =>
    match customerRowError seen data with
    | some m =>
      let r := bulkCustomersLoop seen (idx + 1) rest
      ({ index := idx, email := data.email, messages := m } :: r.1, r.2)
    | none =>
      let r := bulkCustomersLoop (seen ++ [data.email]) (idx + 1) rest
      (r.1, data :: r.2)

/-- `Customer.objects.bulk_create`: persist the accepted rows, assigning
sequential primary keys. -/
def assignCustomerIds (nextId : Nat) : List CustomerInput → List Customer
  | [] => []
  | d :: rest =>
    { id := nextId, name := d.name, email := d.email, phone := d.phone } ::
      assignCustomerIds (nextId + 1) rest

/-- Result object of the `bulk_create_customers` mutation. -/
structure BulkCustomersResult where
  createdCustomers : List Customer
  success : Bool
  message : String
  errors : Option (List BulkCustomerError)
deriving Repr, DecidableEq

/-- `CreateBulkCustomers.mutate`.  The `bulk_create` call has no
`try/except`: an `IntegrityError` there (`dbFail` with at least one accepted
row) propagates to the caller, modelled as `Except.error dbMsg`. -/
def bulkCreateCustomers (s : Store) (inputs : List CustomerInput)
    (dbFail : Bool) (dbMsg : String) :
    Except String (BulkCustomersResult × Store) :=
  let seen0 := batchExistingEmails s inputs
  let r := bulkCustomersLoop seen0 0 inputs
  let errors := r.1
  let valids := r.2
  let ins : Except String (List Customer × Store) :=
    if valids = [] then Except.ok ([], s)
    else if dbFail then Except.error dbMsg
    else
      let created := assignCustomerIds s.nextCustomerId valids
      Except.ok (created,
        { s with customers := s.customers ++ created,
                 nextCustomerId := s.nextCustomerId + created.length })
  match ins with
  | Except.error e => Except.error e
  | Except.ok (created, s2) =>
    Except.ok
      ({ createdCustomers := created,
         success := errors.isEmpty,
         message := "Created " ++ toString created.length ++ " customers.",
         errors := if errors.isEmpty then none else some errors }, s2)

/-- One row of the `bulk_create_orders` input batch (`BulkOrderInputType`). -/
structure OrderInput where
  customerId : Nat
  productId : Nat
deriving Repr, DecidableEq

/-- `BulkOrderError`: a per-row error entry of `bulk_create_orders`. -/
structure BulkOrderError where
  index : Nat
  customerId : Nat
  productId : Nat
  messages : String
deriving Repr, DecidableEq

/-- Reference resolution for one `bulk_create_orders` row: the customer
lookup, then the product lookup; the first miss fails the row. -/
def orderRowResolve (s : Store) (data : OrderInput) : Option (Customer × Product) :=
  match findCustomer s data.customerId with
  | none => none
  | some c =>
    match findProduct s data.productId with
    | none => none
    | some p => some (c, p)

/-- The error entry recorded for a `bulk_create_orders` row whose reference
resolution fails at batch position `idx`, `none` when both references
resolve. -/
def orderRowError (s : Store) (idx : Nat) (data : OrderInput) : Option BulkOrderError :=
  match findCustomer s data.customerId with
  | none => some { index := idx, customerId := data.customerId,
                   productId := data.productId, messages := "Customer does not exist." }
  | some _ =>
    match findProduct s data.productId with
    | none => some { index := idx, customerId := data.customerId,
                     productId := data.productId, messages := "Product does not exist." }
    | some _ => none

/-- The resolution loop of `CreateBulkOrders.mutate`: error entries keyed by
batch position, and the resolved (customer, product) pairs kept for the
insert, in batch order. -/
def bulkOrdersLoop (s : Store) (idx : Nat) :
    List OrderInput → List BulkOrderError × List (Customer × Product)
  | [] => ([], [])
  | data :: rest =>
    let r := bulkOrdersLoop s (idx + 1) rest
    match orderRowError s idx data, orderRowResolve s data with
    | some e, _ => (e :: r.1, r.2)
    | none, some cp => (r.1, cp :: r.2)
    | none, none => (r.1, r.2)

/-- `Order.objects.bulk_create`: persist the resolved rows, assigning
sequential primary keys. -/
def assignOrderIds (nextId : Nat) : List (Customer × Product) → List Order
  | [] => []
  | cp :: rest =>
    { id := nextId, customerId := cp.1.id, productId := cp.2.id } ::
      assignOrderIds (nextId + 1) rest

/-- The error entries appended when the atomic insert of
`bulk_create_orders` raises `IntegrityError`: one per row about to be
inserted, indexed by `enumerate(valid_orders)` — the position within the
list of valid rows. -/
def dbFailOrderErrors (dbMsg : String) (valids : List (Customer × Product)) :
    List BulkOrderError :=
  valids.enum.map (fun p =>
    { index := p.1, customerId := p.2.1.id, productId := p.2.2.id,
      messages := "Database error: " ++ dbMsg })

/-- Result object of the `bulk_create_orders` mutation. -/
structure BulkOrdersResult where
  createdOrders : List Order
  success : Bool
  message : String
  errors : Option (List BulkOrderError)
deriving Repr, DecidableEq

/-- `CreateBulkOrders.mutate`.  An `IntegrityError` at the atomic insert
(`dbFail` with at least one resolved row) is caught: the transaction rolls
back, every valid row is downgraded to a database-error entry, and zero
orders are created. -/
def bulkCreateOrders (s : Store) (inputs : List OrderInput)
    (dbFail : Bool) (dbMsg : String) : BulkOrdersResult × Store :=
  let r := bulkOrdersLoop s 0 inputs
  let valids := r.2
  let ins : List Order × List BulkOrderError × Store :=
    if valids = [] then ([], r.1, s)
    else if dbFail then ([], r.1 ++ dbFailOrderErrors dbMsg valids, s)
    else
      let created := assignOrderIds s.nextOrderId valids
      (created, r.1,
        { s with orders := s.orders ++ created,
                 nextOrderId := s.nextOrderId + created.length })
  ({ createdOrders := ins.1,
     success := ins.2.1.isEmpty,
     message := "Created " ++ toString ins.1.length ++ " orders.",
     errors := if ins.2.1.isEmpty then none else some ins.2.1 }, ins.2.2)

/-- A row's phone field passes the bulk loop's phone step: either it is not
truthy (skipped) or it matches the pattern. -/
def phoneFieldOk (p : Option String) : Bool :=
  !pyTruthy p || phoneMatches (p.getD "")

/-- A demonstration store: empty tables, primary keys starting at 1. -/
def store0 : Store := ⟨[], [], [], 1, 1, 1⟩

/-- A demonstration store holding one customer (id 1) and one product
(id 1). -/
def storeCP : Store :=
  ⟨[⟨1, "C", "c@x.com", none⟩], [⟨1, "P", 5, some 2⟩], [], 2, 2, 1⟩

/-! ## Helper lemmas -/

theorem bulkCustomersLoop_length (inputs : List CustomerInput) :
    ∀ seen idx, (bulkCustomersLoop seen idx inputs).1.length +
      (bulkCustomersLoop seen idx inputs).2.length = inputs.length := by
  induction inputs with
  | nil => intro seen idx; rfl
  | cons data rest ih =>
    intro seen idx
    cases h : customerRowError seen data with
    | none =>
      have h2 := ih (seen ++ [data.email]) (idx + 1)
      simp [bulkCustomersLoop, h]
      omega
    | some m =>
      have h2 := ih seen (idx + 1)
      simp [bulkCustomersLoop, h]
      omega

theorem assignCustomerIds_length (l : List CustomerInput) :
    ∀ n, (assignCustomerIds n l).length = l.length := by
  induction l with
  | nil => intro n; rfl
  | cons d rest ih => intro n; simp [assignCustomerIds, ih]

theorem bulkOrdersLoop_length (s : Store) (inputs : List OrderInput) :
    ∀ idx, (bulkOrdersLoop s idx inputs).1.length +
      (bulkOrdersLoop s idx inputs).2.length = inputs.length := by
  induction inputs with
  | nil => intro idx; rfl
  | cons data rest ih =>
    intro idx
    have h := ih (idx + 1)
    cases hc : findCustomer s data.customerId with
    | none => simp [bulkOrdersLoop, orderRowError, orderRowResolve, hc]; omega
    | some c =>
      cases hp : findProduct s data.productId with
      | none => simp [bulkOrdersLoop, orderRowError, orderRowResolve, hc, hp]; omega
      | some p => simp [bulkOrdersLoop, orderRowError, orderRowResolve, hc, hp]; omega

theorem assignOrderIds_length (l : List (Customer × Product)) :
    ∀ n, (assignOrderIds n l).length = l.length := by
  induction l with
  | nil => intro n; rfl
  | cons cp rest ih => intro n; simp [assignOrderIds, ih]

theorem bulkOrdersLoop_errors (s : Store) (inputs : List OrderInput) :
    ∀ idx, (bulkOrdersLoop s idx inputs).1 =
      (List.enumFrom idx inputs).filterMap (fun p => orderRowError s p.1 p.2) := by
  induction inputs with
  | nil => intro idx; rfl
  | cons data rest ih =>
    intro idx
    cases hc : findCustomer s data.customerId with
    | none =>
      simp [bulkOrdersLoop, orderRowError, orderRowResolve, hc, List.enumFrom, ih]
    | some c =>
      cases hp : findProduct s data.productId with
      | none =>
        simp [bulkOrdersLoop, orderRowError, orderRowResolve, hc, hp, List.enumFrom, ih]
      | some p =>
        simp [bulkOrdersLoop, orderRowError, orderRowResolve, hc, hp, List.enumFrom, ih]

theorem bulkOrdersLoop_valids (s : Store) (inputs : List OrderInput) :
    ∀ idx, (bulkOrdersLoop s idx inputs).2 =
      inputs.filterMap (orderRowResolve s) := by
  induction inputs with
  | nil => intro idx; rfl
  | cons data rest ih =>
    intro idx
    cases hc : findCustomer s data.customerId with
    | none => simp [bulkOrdersLoop, orderRowError, orderRowResolve, hc, ih]
    | some c =>
      cases hp : findProduct s data.productId with
      | none => simp [bulkOrdersLoop, orderRowError, orderRowResolve, hc, hp, ih]
      | some p => simp [bulkOrdersLoop, orderRowError, orderRowResolve, hc, hp, ih]

/-- The phone pattern `^(\+\d{10,15}|\d{3}-\d{3}-\d{4})$`, restated
declaratively: a plus sign followed by 10 to 15 digits, or three digits, a
dash, three digits, a dash, four digits. -/
def PhonePatternSpec (s : String) : Prop :=
  (∃ ds : List Char, s.data = '+' :: ds ∧ (∀ c ∈ ds, c.isDigit = true) ∧
    10 ≤ ds.length ∧ ds.length ≤ 15) ∨
  (∃ a b c d e f g h i j : Char,
    s.data = [a, b, c, '-', d, e, f, '-', g, h, i, j] ∧
    ∀ x ∈ [a, b, c, d, e, f, g, h, i, j], x.isDigit = true)

theorem phonePlusForm_iff (l : List Char) :
    phonePlusForm l = true ↔
      ∃ ds : List Char, l = '+' :: ds ∧ (∀ c ∈ ds, c.isDigit = true) ∧
        10 ≤ ds.length ∧ ds.length ≤ 15 := by
  cases l with
  | nil => simp [phonePlusForm]
  | cons c rest =>
    constructor
    · intro hl
      by_cases hc : c = '+'
      · subst hc
        have h2 : (phoneDigits rest && decide (10 ≤ rest.length) &&
            decide (rest.length ≤ 15)) = true := hl
        simp only [Bool.and_eq_true, decide_eq_true_eq] at h2
        exact ⟨rest, rfl, by simpa [phoneDigits, List.all_eq_true] using h2.1.1,
          h2.1.2, h2.2⟩
      · exact absurd hl (by simp [phonePlusForm, hc])
    · rintro ⟨ds, hds, hdig, hlo, hhi⟩
      rw [hds]
      show (phoneDigits ds && decide (10 ≤ ds.length) && decide (ds.length ≤ 15)) = true
      simp [phoneDigits, List.all_eq_true, hlo, hhi]
      exact hdig

theorem phoneDashForm_iff (l : List Char) :
    phoneDashForm l = true ↔
      ∃ a b c d e f g h i j : Char,
        l = [a, b, c, '-', d, e, f, '-', g, h, i, j] ∧
        ∀ x ∈ [a, b, c, d, e, f, g, h, i, j], x.isDigit = true := by
  constructor
  · intro hl
    rcases l with _ | ⟨a, _ | ⟨b, _ | ⟨c, _ | ⟨s1, _ | ⟨d, _ | ⟨e, _ | ⟨f, _ |
      ⟨s2, _ | ⟨g, _ | ⟨h, _ | ⟨i, _ | ⟨j, _ | ⟨k, rest⟩⟩⟩⟩⟩⟩⟩⟩⟩⟩⟩⟩⟩
    all_goals
      first
      | exact Bool.noConfusion hl
      | · have h2 : (s1 == '-' && (s2 == '-') &&
              phoneDigits [a, b, c, d, e, f, g, h, i, j]) = true := hl
          simp only [Bool.and_eq_true, beq_iff_eq] at h2
          refine ⟨a, b, c, d, e, f, g, h, i, j, ?_, ?_⟩
          · rw [h2.1.1, h2.1.2]
          · simpa [phoneDigits, List.all_eq_true] using h2.2
  · rintro ⟨a, b, c, d, e, f, g, h, i, j, hds, hdig⟩
    cases hds
    have h3 : ∀ x ∈ [a, b, c, d, e, f, g, h, i, j], x.isDigit = true := hdig
    show (('-' == '-') && (('-' == '-') &&
      phoneDigits [a, b, c, d, e, f, g, h, i, j])) = true
    simpa [phoneDigits, List.all_eq_true] using h3

theorem phoneMatches_iff (s : String) :
    phoneMatches s = true ↔ PhonePatternSpec s := by
  unfold phoneMatches PhonePatternSpec
  rw [Bool.or_eq_true, phonePlusForm_iff, phoneDashForm_iff]

/-- Normal form of `bulkCreateCustomers` when the atomic insert does not
raise. -/
theorem bulkCreateCustomers_run (s : Store) (inputs : List CustomerInput) (dbMsg : String) :
    bulkCreateCustomers s inputs false dbMsg =
      Except.ok
        ({ createdCustomers := assignCustomerIds s.nextCustomerId
             (bulkCustomersLoop (batchExistingEmails s inputs) 0 inputs).2,
           success := (bulkCustomersLoop (batchExistingEmails s inputs) 0 inputs).1.isEmpty,
           message := "Created " ++ toString (assignCustomerIds s.nextCustomerId
             (bulkCustomersLoop (batchExistingEmails s inputs) 0 inputs).2).length ++ " customers.",
           errors := if (bulkCustomersLoop (batchExistingEmails s inputs) 0 inputs).1.isEmpty
             then none else some (bulkCustomersLoop (batchExistingEmails s inputs) 0 inputs).1 },
         { s with
           customers := (s.customers ++ assignCustomerIds s.nextCustomerId
             (bulkCustomersLoop (batchExistingEmails s inputs) 0 inputs).2),
           nextCustomerId := (s.nextCustomerId + (assignCustomerIds s.nextCustomerId
             (bulkCustomersLoop (batchExistingEmails s inputs) 0 inputs).2).length) }) := by
  by_cases hv : (bulkCustomersLoop (batchExistingEmails s inputs) 0 inputs).2 = []
  · simp [bulkCreateCustomers, hv, assignCustomerIds]
  · simp [bulkCreateCustomers, hv]

/-- Normal form of `bulkCreateOrders` when the atomic insert does not
raise. -/
theorem bulkCreateOrders_run (s : Store) (inputs : List OrderInput) (dbMsg : String) :
    bulkCreateOrders s inputs false dbMsg =
      ({ createdOrders := assignOrderIds s.nextOrderId (bulkOrdersLoop s 0 inputs).2,
         success := (bulkOrdersLoop s 0 inputs).1.isEmpty,
         message := "Created " ++ toString (assignOrderIds s.nextOrderId
           (bulkOrdersLoop s 0 inputs).2).length ++ " orders.",
         errors := if (bulkOrdersLoop s 0 inputs).1.isEmpty then none
           else some (bulkOrdersLoop s 0 inputs).1 },
       { s with
         orders := (s.orders ++ assignOrderIds s.nextOrderId (bulkOrdersLoop s 0 inputs).2),
         nextOrderId := (s.nextOrderId + (assignOrderIds s.nextOrderId
           (bulkOrdersLoop s 0 inputs).2).length) }) := by
  by_cases hv : (bulkOrdersLoop s 0 inputs).2 = []
  · simp [bulkCreateOrders, hv, assignOrderIds]
  · simp [bulkCreateOrders, hv]

/-- Normal form of `bulkCreateOrders` when the atomic insert raises
`IntegrityError`: nothing is committed, the valid rows are downgraded to
database-error entries. -/
theorem bulkCreateOrders_dbFail (s : Store) (inputs : List OrderInput) (dbMsg : String) :
    bulkCreateOrders s inputs true dbMsg =
      ({ createdOrders := [],
         success := ((bulkOrdersLoop s 0 inputs).1 ++
           dbFailOrderErrors dbMsg (bulkOrdersLoop s 0 inputs).2).isEmpty,
         message := "Created 0 orders.",
         errors := if ((bulkOrdersLoop s 0 inputs).1 ++
             dbFailOrderErrors dbMsg (bulkOrdersLoop s 0 inputs).2).isEmpty then none
           else some ((bulkOrdersLoop s 0 inputs).1 ++
             dbFailOrderErrors dbMsg (bulkOrdersLoop s 0 inputs).2) }, s) := by
  by_cases hv : (bulkOrdersLoop s 0 inputs).2 = []
  · simp [bulkCreateOrders, hv, dbFailOrderErrors]
    rfl
  · simp [bulkCreateOrders, hv]
    rfl

/-! ## Claim theorems -/

/-- C6: phone validation succeeds exactly when the string matches the
pattern `^(\+\d{10,15}|\d{3}-\d{3}-\d{4})$`, and otherwise fails with the
fixed format-error message; `+1234567890` and `123-456-7890` pass and
`12345` fails. -/
theorem phone_validation_matches_pattern :
    (∀ p, validate_phone p = none ↔ PhonePatternSpec p) ∧
    (∀ p, validate_phone p = none ∨ validate_phone p = some phoneErrorMsg) ∧
    validate_phone "+1234567890" = none ∧
    validate_phone "123-456-7890" = none ∧
    validate_phone "12345" = some phoneErrorMsg := by
  refine ⟨?_, ?_, rfl, rfl, rfl⟩
  · intro p
    rw [← phoneMatches_iff]
    unfold validate_phone
    by_cases h : phoneMatches p <;> simp [h]
  · intro p
    unfold validate_phone
    by_cases h : phoneMatches p <;> simp [h]

/-- C10: on the empty input batch both bulk mutations leave the store
untouched and return success, a message reporting 0 created, an empty
created list and a null errors field. -/
theorem empty_batch_results (s : Store) (dbFail : Bool) (dbMsg : String) :
    bulkCreateCustomers s [] dbFail dbMsg =
      Except.ok
        ({ createdCustomers := [], success := true,
           message := "Created 0 customers.", errors := none }, s) ∧
    bulkCreateOrders s [] dbFail dbMsg =
      ({ createdOrders := [], success := true,
         message := "Created 0 orders.", errors := none }, s) := by
  refine ⟨rfl, ?_⟩
  show (({ createdOrders := [], success := true,
           message := ("Created " ++ toString (0 : Nat) ++ " orders."),
           errors := none } : BulkOrdersResult), s) =
    (({ createdOrders := [], success := true,
        message := "Created 0 orders.", errors := none } : BulkOrdersResult), s)
  rfl

/-- C1: evaluated at a batch whose single row passes validation while the
atomic insert raises `IntegrityError`: `bulk_create_orders` returns a
structured result with 0 created orders and one database-error entry, but
`bulk_create_customers` propagates the exception to the caller instead of
returning a result object. -/
theorem bulk_insert_failure_evaluation :
    bulkCreateCustomers store0 [⟨"A", "a@x.com", none⟩] true "duplicate key" =
      Except.error "duplicate key" ∧
    bulkCreateOrders storeCP [⟨1, 1⟩] true "duplicate key" =
      ({ createdOrders := [], success := false, message := "Created 0 orders.",
         errors := some [⟨0, 1, 1, "Database error: duplicate key"⟩] }, storeCP) :=
  ⟨rfl, rfl⟩

/-- C2: evaluated at a two-row batch whose first row fails reference
resolution and whose second row is valid, with the atomic insert raising:
the database-error entry for the failing row at original batch position 1
carries index 0 (its position within the valid-rows list), so the two error
entries share index 0 and no entry carries index 1. -/
theorem bulk_orders_db_error_index_evaluation :
    (bulkCreateOrders storeCP [⟨99, 1⟩, ⟨1, 1⟩] true "duplicate key").1.errors =
      some [⟨0, 99, 1, "Customer does not exist."⟩,
            ⟨0, 1, 1, "Database error: duplicate key"⟩] ∧
    (bulkCreateOrders storeCP [⟨99, 1⟩, ⟨1, 1⟩] true "duplicate key").1.createdOrders = [] ∧
    ((bulkCreateOrders storeCP [⟨99, 1⟩, ⟨1, 1⟩] true "duplicate key").1.errors.getD []).map
      (fun e => e.index) = [0, 0] :=
  ⟨rfl, rfl, rfl⟩

/-- C3: when the atomic insert does not fail, both bulk mutations return
success iff the error list is empty (a null errors field), a message
reporting exactly the number of entities created, and created entities plus
error entries together account for every input row. -/
theorem bulk_result_reconciliation :
    (∀ (s : Store) (inputs : List CustomerInput) (dbMsg : String),
      ∃ r s2, bulkCreateCustomers s inputs false dbMsg = Except.ok (r, s2) ∧
        (r.success = true ↔ r.errors = none) ∧
        r.message = "Created " ++ toString r.createdCustomers.length ++ " customers." ∧
        r.createdCustomers.length + (r.errors.getD []).length = inputs.length) ∧
    (∀ (s : Store) (inputs : List OrderInput) (dbMsg : String),
      ((bulkCreateOrders s inputs false dbMsg).1.success = true ↔
        (bulkCreateOrders s inputs false dbMsg).1.errors = none) ∧
      (bulkCreateOrders s inputs false dbMsg).1.message = "Created " ++
        toString (bulkCreateOrders s inputs false dbMsg).1.createdOrders.length ++ " orders." ∧
      (bulkCreateOrders s inputs false dbMsg).1.createdOrders.length +
        ((bulkCreateOrders s inputs false dbMsg).1.errors.getD []).length = inputs.length) := by
  constructor
  · intro s inputs dbMsg
    refine ⟨_, _, bulkCreateCustomers_run s inputs dbMsg, ?_, ?_, ?_⟩
    · by_cases hE : (bulkCustomersLoop (batchExistingEmails s inputs) 0 inputs).1.isEmpty <;>
        simp [hE]
    · rfl
    · have hlen := bulkCustomersLoop_length inputs (batchExistingEmails s inputs) 0
      by_cases hE : (bulkCustomersLoop (batchExistingEmails s inputs) 0 inputs).1.isEmpty
      · have h0 := List.isEmpty_iff.mp hE
        rw [h0] at hlen
        simp only [List.length_nil] at hlen
        simp [hE, assignCustomerIds_length]
        omega
      · simp [hE, assignCustomerIds_length]
        omega
  · intro s inputs dbMsg
    rw [bulkCreateOrders_run]
    refine ⟨?_, ?_, ?_⟩
    · by_cases hE : (bulkOrdersLoop s 0 inputs).1.isEmpty <;> simp [hE]
    · rfl
    · have hlen := bulkOrdersLoop_length s inputs 0
      by_cases hE : (bulkOrdersLoop s 0 inputs).1.isEmpty
      · have h0 := List.isEmpty_iff.mp hE
        rw [h0] at hlen
        simp only [List.length_nil] at hlen
        simp [hE, assignOrderIds_length]
        omega
      · simp [hE, assignOrderIds_length]
        omega

/-- C4 counterexample: a two-row batch sharing the email `dup@x.com`, absent
from the store, whose FIRST row carries the invalid phone `12345`: the first
row is rejected (phone error) instead of accepted, and the second row is
inserted instead of rejected as a duplicate. -/
theorem duplicate_email_first_row_invalid_phone_eval :
    bulkCreateCustomers store0
      [⟨"A", "dup@x.com", some "12345"⟩, ⟨"B", "dup@x.com", some "+1234567890"⟩]
      false "m" =
    Except.ok
      ({ createdCustomers := [⟨1, "B", "dup@x.com", some "+1234567890"⟩],
         success := false, message := "Created 1 customers.",
         errors := some [⟨0, "dup@x.com", phoneErrorMsg⟩] },
       ⟨[⟨1, "B", "dup@x.com", some "+1234567890"⟩], [], [], 2, 1, 1⟩) :=
  rfl

/-- C4 (amended): in every two-row batch sharing an email that does not
exist in storage, if the first row also passes its phone validation, the
first row is accepted and inserted and the second is rejected with a
duplicate-email error entry at index 1. -/
theorem duplicate_email_within_batch (s : Store) (r1 r2 : CustomerInput) (dbMsg : String)
    (he : r1.email = r2.email) (hex : emailExists s r1.email = false)
    (hp : phoneFieldOk r1.phone = true) :
    bulkCreateCustomers s [r1, r2] false dbMsg =
      Except.ok
        ({ createdCustomers := [⟨s.nextCustomerId, r1.name, r1.email, r1.phone⟩],
           success := false, message := "Created 1 customers.",
           errors := some [⟨1, r2.email, "This email already exists."⟩] },
         { s with
           customers := (s.customers ++ [⟨s.nextCustomerId, r1.name, r1.email, r1.phone⟩]),
           nextCustomerId := s.nextCustomerId + 1 }) := by
  have hseen : batchExistingEmails s [r1, r2] = [] := by
    simp [batchExistingEmails, hex, ← he]
  have h1 : customerRowError [] r1 = none := by
    cases hb : pyTruthy r1.phone with
    | false => simp [customerRowError, hb]
    | true =>
      have hm : phoneMatches (r1.phone.getD "") = true := by
        simpa [phoneFieldOk, hb] using hp
      simp [customerRowError, hb, validate_phone, hm]
  have h2 : customerRowError [r1.email] r2 = some "This email already exists." := by
    simp [customerRowError, ← he]
  have hloop : bulkCustomersLoop [] 0 [r1, r2] =
      ([⟨1, r2.email, "This email already exists."⟩], [r1]) := by
    simp [bulkCustomersLoop, h1, h2]
  rw [bulkCreateCustomers_run, hseen, hloop]
  simp [assignCustomerIds]
  rfl

/-- C4 witness: the amended theorem applied at a concrete two-row batch. -/
theorem duplicate_email_within_batch_witness :
    bulkCreateCustomers store0
      [⟨"A", "dup@x.com", none⟩, ⟨"B", "dup@x.com", none⟩] false "m" =
      Except.ok
        ({ createdCustomers := [⟨store0.nextCustomerId, "A", "dup@x.com", none⟩],
           success := false, message := "Created 1 customers.",
           errors := some [⟨1, "dup@x.com", "This email already exists."⟩] },
         { store0 with
           customers := (store0.customers ++ [⟨store0.nextCustomerId, "A", "dup@x.com", none⟩]),
           nextCustomerId := store0.nextCustomerId + 1 }) :=
  duplicate_email_within_batch store0 ⟨"A", "dup@x.com", none⟩ ⟨"B", "dup@x.com", none⟩ "m"
    rfl rfl rfl

/-- C5: a nonexistent customer_id or product_id yields a reference-error
result from `create_order` with the store unchanged, and in
`bulk_create_orders` a per-row reference-error entry at the row's batch
index; the store's order table only ever grows by rows whose two references
resolved. -/
theorem missing_reference_rejection :
    (∀ (s : Store) (cid pid : Nat) (dbFail : Bool) (dbMsg : String),
      findCustomer s cid = none →
        ((createOrder s cid pid dbFail dbMsg).2 = s ∧
         (createOrder s cid pid dbFail dbMsg).1.order = none ∧
         (createOrder s cid pid dbFail dbMsg).1.success = false ∧
         "Customer does not exist." ∈ ((createOrder s cid pid dbFail dbMsg).1.errors.getD []))) ∧
    (∀ (s : Store) (cid pid : Nat) (dbFail : Bool) (dbMsg : String),
      findProduct s pid = none →
        ((createOrder s cid pid dbFail dbMsg).2 = s ∧
         (createOrder s cid pid dbFail dbMsg).1.order = none ∧
         (createOrder s cid pid dbFail dbMsg).1.success = false ∧
         "Product does not exist." ∈ ((createOrder s cid pid dbFail dbMsg).1.errors.getD []))) ∧
    (∀ (s : Store) (inputs : List OrderInput) (dbFail : Bool) (dbMsg : String),
      ((bulkCreateOrders s inputs dbFail dbMsg).2.orders =
        s.orders ++ (if dbFail = true then []
          else assignOrderIds s.nextOrderId (inputs.filterMap (orderRowResolve s)))) ∧
      (∀ (i : Nat) (d : OrderInput) (e : BulkOrderError),
        inputs[i]? = some d → orderRowError s i d = some e →
          e ∈ ((bulkCreateOrders s inputs dbFail dbMsg).1.errors.getD []))) := by
  refine ⟨?_, ?_, ?_⟩
  · intro s cid pid dbFail dbMsg hc
    simp [createOrder, hc]
  · intro s cid pid dbFail dbMsg hp
    cases hc : findCustomer s cid <;> simp [createOrder, hc, hp]
  · intro s inputs dbFail dbMsg
    constructor
    · cases dbFail
      · rw [bulkCreateOrders_run, bulkOrdersLoop_valids]
        simp
      · rw [bulkCreateOrders_dbFail]
        simp
    · intro i d e hget herr
      have hmem : e ∈ (bulkOrdersLoop s 0 inputs).1 := by
        rw [bulkOrdersLoop_errors]
        refine List.mem_filterMap.mpr ⟨(i, d), ?_, ?_⟩
        · have hg : (List.enumFrom 0 inputs)[i]? = some (i, d) := by
            rw [List.getElem?_enumFrom]
            simp [hget]
          exact List.getElem?_mem hg
        · simpa using herr
      have hne : (bulkOrdersLoop s 0 inputs).1 ≠ [] := List.ne_nil_of_mem hmem
      have hnE : (bulkOrdersLoop s 0 inputs).1.isEmpty = false := by
        simpa [List.isEmpty_iff] using hne
      cases dbFail
      · rw [bulkCreateOrders_run]
        simp [hnE, hmem]
      · rw [bulkCreateOrders_dbFail]
        have hnE2 : ((bulkOrdersLoop s 0 inputs).1 ++
            dbFailOrderErrors dbMsg (bulkOrdersLoop s 0 inputs).2).isEmpty = false := by
          simp [List.isEmpty_iff, hne]
        simp [hnE2, List.mem_append, hmem]

/-- C5 witness: the reference-rejection theorem applied at a store holding
only customer 1 and product 1. -/
theorem missing_reference_rejection_witness :
    ((createOrder storeCP 99 1 false "m").2 = storeCP ∧
     (createOrder storeCP 99 1 false "m").1.order = none ∧
     (createOrder storeCP 99 1 false "m").1.success = false ∧
     "Customer does not exist." ∈ ((createOrder storeCP 99 1 false "m").1.errors.getD [])) ∧
    ((createOrder storeCP 1 99 false "m").2 = storeCP ∧
     (createOrder storeCP 1 99 false "m").1.order = none ∧
     (createOrder storeCP 1 99 false "m").1.success = false ∧
     "Product does not exist." ∈ ((createOrder storeCP 1 99 false "m").1.errors.getD [])) ∧
    (⟨0, 99, 1, "Customer does not exist."⟩ : BulkOrderError) ∈
      ((bulkCreateOrders storeCP [⟨99, 1⟩] false "m").1.errors.getD []) :=
  ⟨missing_reference_rejection.1 storeCP 99 1 false "m" rfl,
   missing_reference_rejection.2.1 storeCP 1 99 false "m" rfl,
   (missing_reference_rejection.2.2 storeCP [⟨99, 1⟩] false "m").2 0 ⟨99, 1⟩
     ⟨0, 99, 1, "Customer does not exist."⟩ rfl rfl⟩

/-- C7: when any field validation fails (duplicate email, malformed truthy
phone, negative price, negative stock), `create_customer` and
`create_product` return a failure result carrying a non-empty string error
list and the store is unchanged — no insert is attempted. -/
theorem single_mutation_validation_failure :
    (∀ (s : Store) (name email : String) (phone : Option String)
        (dbFail : Bool) (dbMsg : String),
      (emailExists s email = true ∨
        (pyTruthy phone = true ∧ phoneMatches (phone.getD "") = false)) →
        ((createCustomer s name email phone dbFail dbMsg).1.success = false ∧
         (createCustomer s name email phone dbFail dbMsg).1.message =
           "Customer creation failed due to validation errors." ∧
         (createCustomer s name email phone dbFail dbMsg).1.errors.getD [] ≠ [] ∧
         (createCustomer s name email phone dbFail dbMsg).2 = s)) ∧
    (∀ (s : Store) (name : String) (price : Int) (stock : Option Int)
        (dbFail : Bool) (dbMsg : String),
      (price < 0 ∨ (∃ st, stock = some st ∧ st < 0)) →
        ((createProduct s name price stock dbFail dbMsg).1.success = false ∧
         (createProduct s name price stock dbFail dbMsg).1.message =
           "Product creation failed due to validation errors." ∧
         (createProduct s name price stock dbFail dbMsg).1.errors.getD [] ≠ [] ∧
         (createProduct s name price stock dbFail dbMsg).2 = s)) := by
  constructor
  · intro s name email phone dbFail dbMsg h
    rcases h with hdup | ⟨ht, hm⟩
    · simp [createCustomer, hdup]
    · simp [createCustomer, ht, validate_phone, hm]
  · intro s name price stock dbFail dbMsg h
    have hv : ∃ m, validate_price_stock stock price = some m := by
      by_cases hp : price < 0
      · exact ⟨"Price cannot be negative.", by simp [validate_price_stock, hp]⟩
      · rcases h with hneg | ⟨st, hst, hstneg⟩
        · exact absurd hneg hp
        · exact ⟨"Stock cannot be negative.",
            by simp [validate_price_stock, hp, hst, hstneg]⟩
    obtain ⟨m, hm⟩ := hv
    simp [createProduct, hm]

/-- C7 witness: a duplicate email and a negative price at concrete
inputs. -/
theorem single_mutation_validation_failure_witness :
    ((createCustomer storeCP "X" "c@x.com" none false "m").1.success = false ∧
     (createCustomer storeCP "X" "c@x.com" none false "m").1.message =
       "Customer creation failed due to validation errors." ∧
     (createCustomer storeCP "X" "c@x.com" none false "m").1.errors.getD [] ≠ [] ∧
     (createCustomer storeCP "X" "c@x.com" none false "m").2 = storeCP) ∧
    ((createProduct storeCP "P" (-3) (some 2) false "m").1.success = false ∧
     (createProduct storeCP "P" (-3) (some 2) false "m").1.message =
       "Product creation failed due to validation errors." ∧
     (createProduct storeCP "P" (-3) (some 2) false "m").1.errors.getD [] ≠ [] ∧
     (createProduct storeCP "P" (-3) (some 2) false "m").2 = storeCP) :=
  ⟨single_mutation_validation_failure.1 storeCP "X" "c@x.com" none false "m"
     (Or.inl rfl),
   single_mutation_validation_failure.2 storeCP "P" (-3) (some 2) false "m"
     (Or.inl (by decide))⟩

/-- C8: an empty-string phone is falsy in Python, so both customer-creating
mutations skip phone-format validation for it and insert the customer, even
though the empty string does not match the phone pattern. -/
theorem empty_phone_bypasses_validation :
    (∀ (s : Store) (name email dbMsg : String),
      emailExists s email = false →
        createCustomer s name email (some "") false dbMsg =
          ({ customer := some ⟨s.nextCustomerId, name, email, some ""⟩, success := true,
             message := "Customer created successfully.", errors := none },
           { s with
             customers := (s.customers ++ [⟨s.nextCustomerId, name, email, some ""⟩]),
             nextCustomerId := s.nextCustomerId + 1 })) ∧
    (∀ (s : Store) (name email dbMsg : String),
      emailExists s email = false →
        bulkCreateCustomers s [⟨name, email, some ""⟩] false dbMsg =
          Except.ok
            ({ createdCustomers := [⟨s.nextCustomerId, name, email, some ""⟩],
               success := true, message := "Created 1 customers.", errors := none },
             { s with
               customers := (s.customers ++ [⟨s.nextCustomerId, name, email, some ""⟩]),
               nextCustomerId := s.nextCustomerId + 1 })) ∧
    phoneMatches "" = false := by
  refine ⟨?_, ?_, rfl⟩
  · intro s name email dbMsg hex
    simp [createCustomer, hex, pyTruthy]
  · intro s name email dbMsg hex
    have hseen : batchExistingEmails s [⟨name, email, some ""⟩] = [] := by
      simp [batchExistingEmails, hex]
    have hrow : customerRowError [] ⟨name, email, some ""⟩ = none := by
      simp [customerRowError, pyTruthy]
    have hloop : bulkCustomersLoop [] 0 [⟨name, email, some ""⟩] =
        ([], [⟨name, email, some ""⟩]) := by
      simp [bulkCustomersLoop, hrow]
    rw [bulkCreateCustomers_run, hseen, hloop]
    simp [assignCustomerIds]
    rfl

/-- C8 witness: the bypass theorem applied with a fresh email against the
demonstration store. -/
theorem empty_phone_bypasses_validation_witness :
    createCustomer storeCP "X" "new@x.com" (some "") false "m" =
      ({ customer := some ⟨storeCP.nextCustomerId, "X", "new@x.com", some ""⟩, success := true,
         message := "Customer created successfully.", errors := none },
       { storeCP with
         customers := (storeCP.customers ++ [⟨storeCP.nextCustomerId, "X", "new@x.com", some ""⟩]),
         nextCustomerId := storeCP.nextCustomerId + 1 }) ∧
    bulkCreateCustomers storeCP [⟨"X", "new@x.com", some ""⟩] false "m" =
      Except.ok
        ({ createdCustomers := [⟨storeCP.nextCustomerId, "X", "new@x.com", some ""⟩],
           success := true, message := "Created 1 customers.", errors := none },
         { storeCP with
           customers := (storeCP.customers ++ [⟨storeCP.nextCustomerId, "X", "new@x.com", some ""⟩]),
           nextCustomerId := storeCP.nextCustomerId + 1 }) :=
  ⟨empty_phone_bypasses_validation.1 storeCP "X" "new@x.com" "m" rfl,
   empty_phone_bypasses_validation.2.1 storeCP "X" "new@x.com" "m" rfl⟩

/-- C9: a row rejected for an invalid phone does not add its email to the
seen set, so a later valid row in the same batch with the same email is
accepted and inserted; only the phone error entry (at index 0) is
reported. -/
theorem invalid_phone_row_frees_email (s : Store) (r1 r2 : CustomerInput) (dbMsg : String)
    (he : r1.email = r2.email) (hex : emailExists s r1.email = false)
    (ht : pyTruthy r1.phone = true) (hbad : phoneMatches (r1.phone.getD "") = false)
    (hok : phoneFieldOk r2.phone = true) :
    bulkCreateCustomers s [r1, r2] false dbMsg =
      Except.ok
        ({ createdCustomers := [⟨s.nextCustomerId, r2.name, r2.email, r2.phone⟩],
           success := false, message := "Created 1 customers.",
           errors := some [⟨0, r1.email, phoneErrorMsg⟩] },
         { s with
           customers := (s.customers ++ [⟨s.nextCustomerId, r2.name, r2.email, r2.phone⟩]),
           nextCustomerId := s.nextCustomerId + 1 }) := by
  have hseen : batchExistingEmails s [r1, r2] = [] := by
    simp [batchExistingEmails, hex, ← he]
  have h1 : customerRowError [] r1 = some phoneErrorMsg := by
    simp [customerRowError, ht, validate_phone, hbad]
  have h2 : customerRowError [] r2 = none := by
    cases hb : pyTruthy r2.phone with
    | false => simp [customerRowError, hb]
    | true =>
      have hm : phoneMatches (r2.phone.getD "") = true := by
        simpa [phoneFieldOk, hb] using hok
      simp [customerRowError, hb, validate_phone, hm]
  have hloop : bulkCustomersLoop [] 0 [r1, r2] =
      ([⟨0, r1.email, phoneErrorMsg⟩], [r2]) := by
    simp [bulkCustomersLoop, h1, h2]
  rw [bulkCreateCustomers_run, hseen, hloop]
  simp [assignCustomerIds]
  rfl

/-- C9 witness: first row has phone `12345`, second row shares the email
with no phone. -/
theorem invalid_phone_row_frees_email_witness :
    bulkCreateCustomers store0
      [⟨"A", "dup@x.com", some "12345"⟩, ⟨"B", "dup@x.com", none⟩] false "m" =
      Except.ok
        ({ createdCustomers := [⟨store0.nextCustomerId, "B", "dup@x.com", none⟩],
           success := false, message := "Created 1 customers.",
           errors := some [⟨0, "dup@x.com", phoneErrorMsg⟩] },
         { store0 with
           customers := (store0.customers ++ [⟨store0.nextCustomerId, "B", "dup@x.com", none⟩]),
           nextCustomerId := store0.nextCustomerId + 1 }) :=
  invalid_phone_row_frees_email store0 ⟨"A", "dup@x.com", some "12345"⟩
    ⟨"B", "dup@x.com", none⟩ "m" rfl rfl rfl rfl rfl
